import Mathlib

/-!
Verification of the mindkids backend (src/server.js) against its
natural-language specification.

The source file holds two near-duplicate variants of the same Express
application.  We shallow-embed the handlers that the claims are about:

* the user / payment row store (the Supabase/Postgres collaborator is
  external; we embed it at its interface boundary from spec §6:
  unique-constrained `email` and `mp_payment_id` columns, inserts that
  error instead of throwing on a duplicate key),
* the webhook reconciler `POST /api/pay/webhook` (variant 1,
  src/server.js lines 122-148),
* the auth middleware `authRequired` (both variants, lines 36-46 and
  193-203),
* the token service `createToken` / `jwt.verify` (the `jsonwebtoken`
  library is external; modelled from spec §4.2: HMAC-signed payload with
  a 7-day expiry),
* the register / login handlers of both variants.

External effects (the Mercado Pago fetch, bcrypt hashing and comparison,
fresh row ids, the clock) are passed in as explicit parameters, so every
handler is a pure function of its inputs and the store state.
-/

namespace MindKids

/-- A row of the `users` table: id, email, password_hash, is_paid,
created_at (src/server.js lines 55-59 insert exactly these columns). -/
structure User where
  id : Nat
  email : String
  password_hash : String
  is_paid : Bool
  created_at : Nat
  deriving Repr, DecidableEq

/-- A row of the `payments` table as inserted by the webhook handler
(src/server.js lines 131-139): user_id, mp_payment_id, status, amount.
The `raw` column stores the fetched provider payload; we keep its
security-relevant projection (status, amount, metadata userId). -/
structure PaymentRow where
  user_id : Nat
  mp_payment_id : String
  status : String
  amount : Int
  raw_status : String
  raw_amount : Int
  raw_userId : Option Nat
  deriving Repr, DecidableEq

/-- The observable store state: the `users` and `payments` tables. -/
structure Store where
  users : List User
  payments : List PaymentRow
  deriving Repr, DecidableEq

/-- The payment record fetched from the provider by id
(`mercadopago.payment.findById`, src/server.js line 126): status,
transaction_amount and the correlation userId in metadata. -/
structure FetchedPayment where
  status : String
  transaction_amount : Int
  metadata_userId : Option Nat
  deriving Repr, DecidableEq

/-- Result of `mercadopago.payment.findById`: the fetched record, or an
exception (network / SDK failure), which the handler's `catch {}`
swallows. -/
inductive FetchResult where
  | ok (p : FetchedPayment)
  | exc
  deriving Repr, DecidableEq

/-- The parsed JSON body of a webhook request (src/server.js line 123
reads `{type, data}` from `req.body`).  `dataId` is `data?.id` after
`String(...)` conversion; `none` models an absent `data` or `data.id`.
The remaining fields model advisory extras a forged body may carry
(`status`, `amount`, and arbitrary further keys); the handler never
reads them. -/
structure WebhookBody where
  type : Option String
  dataId : Option String
  body_status : Option String
  body_amount : Option Int
  extras : List (String × String)
  deriving Repr, DecidableEq

/-- JS truthiness of the `data?.id` guard on line 124: present and not
the empty string. -/
def WebhookBody.hasId (b : WebhookBody) : Bool :=
  match b.dataId with
  | some s => s ≠ ""
  | none => false

/-- `supabase.from("payments").insert([...])` against a table with a
unique `mp_payment_id` column (spec §6: `insertPayment` fails/no-ops on
a duplicate identifier; the supabase client returns the error, it does
not throw).  Returns the new store; on a duplicate key the store is
unchanged. -/
def insertPayment (st : Store) (r : PaymentRow) : Store :=
  if st.payments.any (fun q => q.mp_payment_id = r.mp_payment_id) then st
  else { st with payments := r :: st.payments }

/-- `supabase.from("users").update({ is_paid: true }).eq("id", userId)`
(src/server.js line 142). -/
def setUserPaid (st : Store) (uid : Nat) : Store :=
  { st with
    users := st.users.map (fun u => if u.id = uid then { u with is_paid := true } else u) }

/-- The payments row the webhook handler builds from the fetched
provider record (src/server.js lines 131-139): every security-relevant
field (`status`, `amount`, `raw`) comes from the fetched record, only
the key `mp_payment_id` comes from the notification body. -/
def rowOf (pid : String) (p : FetchedPayment) (uid : Nat) : PaymentRow :=
  { user_id := uid, mp_payment_id := pid, status := p.status,
    amount := p.transaction_amount, raw_status := p.status,
    raw_amount := p.transaction_amount, raw_userId := p.metadata_userId }

/-- The `POST /api/pay/webhook` handler of variant 1 (src/server.js
lines 122-148).  `fetch` is the provider lookup by id; `insertExc` and
`updateExc` model a store call throwing (caught by the `catch {}` on
line 145).  Returns the new store and the HTTP status sent. -/
def webhook (fetch : String → FetchResult) (insertExc updateExc : Bool)
    (b : WebhookBody) (st : Store) : Store × Nat :=
  if b.type = some "payment" ∧ b.hasId then
    match b.dataId with
    | none => (st, 200)
    | some pid =>
      match fetch pid with
      | .exc => (st, 200)
      | .ok p =>
        match p.metadata_userId with
        | none => (st, 200)
        | some uid =>
          if insertExc then (st, 200)
          else if p.status = "approved" then
            if updateExc then (insertPayment st (rowOf pid p uid), 200)
            else (setUserPaid (insertPayment st (rowOf pid p uid)) uid, 200)
          else (insertPayment st (rowOf pid p uid), 200)
  else (st, 200)

/-- The store transition of one exception-free webhook delivery. -/
def reconcile (fetch : String → FetchResult) (b : WebhookBody) (st : Store) : Store :=
  (webhook fetch false false b st).1

/-- Number of payment rows carrying a given provider payment id. -/
def paymentCount (st : Store) (pid : String) : Nat :=
  (st.payments.filter (fun q => q.mp_payment_id = pid)).length

/-- Paid flag of a user id as observed through `findUserById`. -/
def paidOf (st : Store) (uid : Nat) : Bool :=
  match st.users.find? (fun u => u.id = uid) with
  | some u => u.is_paid
  | none => false

/-! ### Token Service

Modelled from the spec: the `jsonwebtoken` library is not part of src/.
Spec §4.2: `issue` serializes the claim, signs it with the process-wide
symmetric HMAC secret and embeds an expiry 7 days from issuance;
`verify` checks signature and expiry, returning distinct
`InvalidSignature` / `ExpiredToken` error kinds.  The signature is a
MAC over the secret, the serialized payload and the expiry; the
serialization is an injective encoding into `Nat`. -/

/-- Injective code of a string (code points in base 0x110000, shifted
so distinct strings get distinct codes). -/
def strCode (s : String) : Nat :=
  s.foldl (fun a c => a * 1114112 + c.toNat + 1) 1

/-- The HMAC signature over the secret, the serialized payload and the
expiry timestamp. -/
def macSig (secret : String) (payloadCode exp : Nat) : Nat :=
  Nat.pair (strCode secret) (Nat.pair payloadCode exp)

/-- A signed token: payload, expiry (seconds since epoch), signature
segment. -/
structure SToken (α : Type) where
  payload : α
  exp : Nat
  sig : Nat
  deriving Repr, DecidableEq

/-- The error kinds of token verification (spec §4.2). -/
inductive AuthError where
  | invalidSignature
  | expired
  deriving Repr, DecidableEq

/-- `jwt.sign(payload, JWT_SECRET, { expiresIn: "7d" })`
(src/server.js lines 32-34): sign the encoded payload with a 7-day
expiry from the current time. -/
def issueWith {α : Type} (enc : α → Nat) (secret : String) (p : α) (now : Nat) : SToken α :=
  { payload := p, exp := now + 7 * 86400,
    sig := macSig secret (enc p) (now + 7 * 86400) }

/-- `jwt.verify(token, JWT_SECRET)`: check the signature, then the
expiry (a JWT is valid strictly before its `exp`). -/
def verifyWith {α : Type} (enc : α → Nat) (secret : String) (t : SToken α) (now : Nat) :
    Except AuthError α :=
  if t.sig = macSig secret (enc t.payload) t.exp then
    if now < t.exp then .ok t.payload else .error .expired
  else .error .invalidSignature

/-- The token payload of variant 1: `{ id, email, is_paid }`
(src/server.js lines 66 and 85) — exactly the user identifier, the
email and the paid snapshot, nothing else. -/
structure ClaimV1 where
  id : Nat
  email : String
  is_paid : Bool
  deriving Repr, DecidableEq

/-- Serialization of a variant-1 claim. -/
def encClaim (c : ClaimV1) : Nat :=
  Nat.pair c.id (Nat.pair (strCode c.email) (cond c.is_paid 1 0))

/-- Serialization of a full user row (variant 2 signs the entire row,
src/server.js line 244): id, email, password_hash, is_paid,
created_at. -/
def encUser (u : User) : Nat :=
  Nat.pair u.id (Nat.pair (strCode u.email)
    (Nat.pair (strCode u.password_hash) (Nat.pair (cond u.is_paid 1 0) u.created_at)))

/-! ### Auth Gate -/

/-- The wire form of a token string: either the serialization of a
signed token, or a string that is not a well-formed token at all
(`jwt.verify` throws on it). -/
inductive TokenWire (α : Type) where
  | tok (t : SToken α)
  | malformed (s : String)
  deriving DecidableEq

/-- The `Authorization` header of a request: absent, present but not
starting with the literal `"Bearer "`, or `"Bearer "` followed by a
token string. -/
inductive BearerCred (α : Type) where
  | noHeader
  | notBearer (s : String)
  | bearer (w : TokenWire α)
  deriving DecidableEq

/-- `jwt.verify` on a wire token: a malformed string throws
(modelled as a signature error); a structured token is verified. -/
def jwtVerify {α : Type} (enc : α → Nat) (secret : String) (now : Nat) (w : TokenWire α) :
    Except AuthError α :=
  match w with
  | .malformed _ => .error .invalidSignature
  | .tok t => verifyWith enc secret t now

/-- Outcome of the `authRequired` middleware: pass the resolved claim
downstream, or reject with a status and a JSON error message. -/
inductive AuthOutcome (α : Type) where
  | next (claim : α)
  | reject (status : Nat) (msg : String)
  deriving DecidableEq

/-- `authRequired` (src/server.js lines 36-46, and identically lines
193-203 of variant 2): a header that does not start with `"Bearer "`
(including an absent one, defaulted to `""`) is rejected with
401 `"Unauthorized"`; a token that fails `jwt.verify` is rejected with
401 `"Invalid token"`; otherwise the claim is attached to the
request. -/
def authRequired {α : Type} (enc : α → Nat) (secret : String) (now : Nat)
    (cred : BearerCred α) : AuthOutcome α :=
  match cred with
  | .noHeader => .reject 401 "Unauthorized"
  | .notBearer _ => .reject 401 "Unauthorized"
  | .bearer w =>
    match jwtVerify enc secret now w with
    | .ok c => .next c
    | .error _ => .reject 401 "Invalid token"

/-! ### Auth routes -/

/-- Response of the register / login handlers of variant 1: HTTP
status, the issued token (when any) and the `user` object of the JSON
body (when any). -/
structure AuthResponse where
  status : Nat
  token : Option (SToken ClaimV1)
  user : Option User
  deriving DecidableEq

/-- The user row the register handler inserts (src/server.js line 57):
`is_paid` is explicitly false. -/
def newUserRow (newId ts : Nat) (email hash : String) : User :=
  { id := newId, email := email, password_hash := hash, is_paid := false,
    created_at := ts }

/-- `POST /api/auth/register` of variant 1 (src/server.js lines
49-68).  `bcryptHash` is `bcrypt.hashSync(·, 10)`, `newId` and `ts`
the row id and `created_at` the store assigns.  A missing or empty
field is falsy (400); a duplicate email violates the unique constraint
(supabase error 23505, 409); otherwise the row is inserted with
`is_paid: false` and the response carries a token over
`{ id, email, is_paid }` and the full inserted row. -/
def register (bcryptHash : String → String) (secret : String) (now newId ts : Nat)
    (st : Store) (email pw : String) : Store × AuthResponse :=
  if email = "" ∨ pw = "" then (st, { status := 400, token := none, user := none })
  else if st.users.any (fun u => u.email = email) then
    (st, { status := 409, token := none, user := none })
  else
    ({ st with users := st.users ++ [newUserRow newId ts email (bcryptHash pw)] },
     { status := 200,
       token := some (issueWith encClaim secret
         { id := newId, email := email, is_paid := false } now),
       user := some (newUserRow newId ts email (bcryptHash pw)) })

/-- `POST /api/auth/login` of variant 1 (src/server.js lines 70-87).
`bcryptCompare` is `bcrypt.compareSync`.  Missing fields are 400; an
unknown email or a failing comparison is 401 `"Invalid credentials"`;
on success the token is over `{ id, email, is_paid }` and the body
carries the full stored row (`select("*")`). -/
def login (bcryptCompare : String → String → Bool) (secret : String) (now : Nat)
    (st : Store) (email pw : String) : Store × AuthResponse :=
  if email = "" ∨ pw = "" then (st, { status := 400, token := none, user := none })
  else
    match st.users.find? (fun u => u.email = email) with
    | none => (st, { status := 401, token := none, user := none })
    | some u =>
      if bcryptCompare pw u.password_hash then
        (st, { status := 200,
               token := some (issueWith encClaim secret
                 { id := u.id, email := u.email, is_paid := u.is_paid } now),
               user := some u })
      else (st, { status := 401, token := none, user := none })

/-- Response of variant 2's login: the token payload is a full user
row. -/
structure AuthResponseV2 where
  status : Nat
  token : Option (SToken User)
  user : Option User
  deriving DecidableEq

/-- `POST /api/auth/login` of variant 2 (src/server.js lines 232-249):
`SELECT * FROM users WHERE email = $1`, then
`createToken(user)` signs the ENTIRE row — including
`password_hash`. -/
def loginV2 (bcryptCompare : String → String → Bool) (secret : String) (now : Nat)
    (st : Store) (email pw : String) : Store × AuthResponseV2 :=
  if email = "" ∨ pw = "" then (st, { status := 400, token := none, user := none })
  else
    match st.users.find? (fun u => u.email = email) with
    | none => (st, { status := 401, token := none, user := none })
    | some u =>
      if bcryptCompare pw u.password_hash then
        (st, { status := 200, token := some (issueWith encUser secret u now),
               user := some u })
      else (st, { status := 401, token := none, user := none })

/-! ### The operations of the system, as store transitions -/

/-- Every request handler of the source, viewed as a transition on the
store.  `getMe` (lines 89-98), `payCreate` (lines 101-120, delegates
to the provider with no local write), variant 2's webhook (lines
280-283, logs and acknowledges) and both logins only read the store;
variant 2's register (lines 211-230) inserts a user whose `is_paid`
takes the column default — `false`, modelled from spec §3. -/
inductive Op where
  | opRegister (bcryptHash : String → String) (secret : String) (now newId ts : Nat)
      (email pw : String)
  | opRegisterV2 (bcryptHash : String → String) (newId ts : Nat) (email pw : String)
  | opLogin (bcryptCompare : String → String → Bool) (secret : String) (now : Nat)
      (email pw : String)
  | opLoginV2 (bcryptCompare : String → String → Bool) (secret : String) (now : Nat)
      (email pw : String)
  | opGetMe (cred : BearerCred ClaimV1)
  | opPayCreate (cred : BearerCred ClaimV1)
  | opWebhook (fetch : String → FetchResult) (insertExc updateExc : Bool) (b : WebhookBody)
  | opWebhookV2 (b : WebhookBody)

/-- The store transition of each operation. -/
def Op.apply : Op → Store → Store
  | .opRegister h s now newId ts email pw, st => (register h s now newId ts st email pw).1
  | .opRegisterV2 h newId ts email pw, st =>
    if email = "" ∨ pw = "" then st
    else if st.users.any (fun u => u.email = email) then st
    else { st with users := st.users ++ [newUserRow newId ts email (h pw)] }
  | .opLogin c s now email pw, st => (login c s now st email pw).1
  | .opLoginV2 c s now email pw, st => (loginV2 c s now st email pw).1
  | .opGetMe _, st => st
  | .opPayCreate _, st => st
  | .opWebhook fetch iE uE b, st => (webhook fetch iE uE b st).1
  | .opWebhookV2 _, st => st

/-! ### Concrete example data, used by witnesses and counterexamples -/

/-- A registered, not yet paid user. -/
def exUser1 : User :=
  { id := 1, email := "a@b.c", password_hash := "h1", is_paid := false, created_at := 0 }

/-- A store holding `exUser1` and no payment rows. -/
def exStoreEmptyPay : Store := { users := [exUser1], payments := [] }

/-- A store holding `exUser1` and an already-recorded `pending` row for
provider payment `PAY1` (e.g. from an earlier delivery while the
payment was still pending). -/
def exStorePending : Store :=
  { users := [exUser1],
    payments := [{ user_id := 1, mp_payment_id := "PAY1", status := "pending",
                   amount := 10, raw_status := "pending", raw_amount := 10,
                   raw_userId := some 1 }] }

/-- A provider whose record for `PAY1` is approved, amount 10,
attributed to user 1. -/
def exFetchApproved : String → FetchResult := fun pid =>
  if pid = "PAY1" then
    FetchResult.ok
      { status := "approved", transaction_amount := 10, metadata_userId := some 1 }
  else FetchResult.exc

/-- A provider whose records carry no correlation userId. -/
def exFetchNoUser : String → FetchResult := fun _ =>
  FetchResult.ok
    { status := "approved", transaction_amount := 10, metadata_userId := none }

/-- A well-formed payment notification for `PAY1`, carrying no
advisory extras. -/
def exBody1 : WebhookBody :=
  { type := some "payment", dataId := some "PAY1", body_status := none,
    body_amount := none, extras := [] }

/-- The same notification with forged advisory `status` / `amount`
fields and an extra key in the body. -/
def exBody1Forged : WebhookBody :=
  { type := some "payment", dataId := some "PAY1", body_status := some "rejected",
    body_amount := some 999999, extras := [("attacker", "true")] }

/-! ### Helper lemmas about the store operations -/

theorem setUserPaid_payments (st : Store) (uid : Nat) :
    (setUserPaid st uid).payments = st.payments := rfl

theorem insertPayment_any_self (st : Store) (r : PaymentRow) :
    ((insertPayment st r).payments.any fun q => q.mp_payment_id = r.mp_payment_id) = true := by
  unfold insertPayment
  by_cases h : (st.payments.any fun q => q.mp_payment_id = r.mp_payment_id) = true
  · simp [h]
  · simp [h]

theorem insertPayment_of_any (st : Store) (r : PaymentRow)
    (h : (st.payments.any fun q => q.mp_payment_id = r.mp_payment_id) = true) :
    insertPayment st r = st := by
  unfold insertPayment
  simp [h]

theorem setUserPaid_idem (st : Store) (uid : Nat) :
    setUserPaid (setUserPaid st uid) uid = setUserPaid st uid := by
  unfold setUserPaid
  simp only [List.map_map]
  congr 1
  apply List.map_congr_left
  intro u _
  by_cases h : u.id = uid <;> simp [Function.comp, h]

/-! ### C3, C4, C6 -/

/-- C3: for every structurally readable webhook body — wrong
notification type, missing `data.id`, unattributable payment, provider
exception, store exception included — the handler answers HTTP 200 and
never surfaces an internal error to the provider. -/
theorem mindkids_C3_webhook_always_200 (fetch : String → FetchResult)
    (insertExc updateExc : Bool) (b : WebhookBody) (st : Store) :
    (webhook fetch insertExc updateExc b st).2 = 200 := by
  unfold webhook
  repeat' split
  all_goals rfl

/-- C4: the handler's effect on the store depends only on the body's
`type` and `data.id`, never on advisory status/amount fields or other
extras of the notification body: two bodies agreeing on `type` and
`data.id` produce identical outcomes against the same provider and
store. -/
theorem mindkids_C4_fetch_then_trust (fetch : String → FetchResult)
    (insertExc updateExc : Bool) (b1 b2 : WebhookBody) (st : Store)
    (ht : b1.type = b2.type) (hd : b1.dataId = b2.dataId) :
    webhook fetch insertExc updateExc b1 st = webhook fetch insertExc updateExc b2 st := by
  obtain ⟨t1, d1, s1, a1, e1⟩ := b1
  obtain ⟨t2, d2, s2, a2, e2⟩ := b2
  simp only at ht hd
  subst ht
  subst hd
  rfl

/-- Witness for C4: a forged body carrying advisory
`status := "rejected"`, `amount := 999999` and an attacker extra is
reconciled exactly like the clean body. -/
theorem mindkids_C4_witness :
    webhook exFetchApproved false false exBody1 exStorePending =
      webhook exFetchApproved false false exBody1Forged exStorePending :=
  mindkids_C4_fetch_then_trust exFetchApproved false false exBody1 exBody1Forged
    exStorePending rfl rfl

/-- C6: a notification whose fetched record carries no correlation
`userId` changes nothing in the store — no user row, no payment row —
and is still acknowledged with 200. -/
theorem mindkids_C6_unattributable_frames_store (fetch : String → FetchResult)
    (insertExc updateExc : Bool) (b : WebhookBody) (st : Store) (pid : String)
    (p : FetchedPayment) (hd : b.dataId = some pid) (hf : fetch pid = .ok p)
    (hu : p.metadata_userId = none) :
    webhook fetch insertExc updateExc b st = (st, 200) := by
  unfold webhook
  split
  · rw [hd]
    simp [hf, hu]
  · rfl

/-- Witness for C6: the approved-but-unattributed provider record for
`PAY1` leaves the whole store untouched and returns 200. -/
theorem mindkids_C6_witness :
    webhook exFetchNoUser false false exBody1 exStorePending = (exStorePending, 200) :=
  mindkids_C6_unattributable_frames_store exFetchNoUser false false exBody1
    exStorePending "PAY1"
    { status := "approved", transaction_amount := 10, metadata_userId := none }
    rfl rfl rfl

/-! ### C1: idempotent reconciliation -/

theorem reconcile_not_processed (fetch : String → FetchResult) (b : WebhookBody)
    (st : Store) (h : ¬(b.type = some "payment" ∧ b.hasId = true)) :
    reconcile fetch b st = st := by
  unfold reconcile webhook
  simp [h]

theorem reconcile_fetch_exc (fetch : String → FetchResult) (b : WebhookBody) (st : Store)
    (pid : String) (hd : b.dataId = some pid) (hf : fetch pid = .exc) :
    reconcile fetch b st = st := by
  unfold reconcile webhook
  split
  · rw [hd]
    simp [hf]
  · rfl

theorem reconcile_no_user (fetch : String → FetchResult) (b : WebhookBody) (st : Store)
    (pid : String) (p : FetchedPayment) (hd : b.dataId = some pid)
    (hf : fetch pid = .ok p) (hu : p.metadata_userId = none) :
    reconcile fetch b st = st := by
  unfold reconcile webhook
  split
  · rw [hd]
    simp [hf, hu]
  · rfl

/-- The store transition of a processed notification: insert the row
built from the fetched record, then (unconditionally, whether or not
the insert was a duplicate no-op) grant entitlement when the fetched
status is approved. -/
theorem reconcile_main (fetch : String → FetchResult) (b : WebhookBody) (st : Store)
    (pid : String) (p : FetchedPayment) (uid : Nat)
    (ht : b.type = some "payment") (hd : b.dataId = some pid) (hp : pid ≠ "")
    (hf : fetch pid = .ok p) (hu : p.metadata_userId = some uid) :
    reconcile fetch b st =
      if p.status = "approved" then setUserPaid (insertPayment st (rowOf pid p uid)) uid
      else insertPayment st (rowOf pid p uid) := by
  unfold reconcile webhook
  have hg : b.type = some "payment" ∧ b.hasId = true := by
    refine ⟨ht, ?_⟩
    unfold WebhookBody.hasId
    rw [hd]
    simp [hp]
  rw [if_pos hg, hd]
  simp only [hf, hu]
  by_cases ha : p.status = "approved" <;> simp [ha]

theorem reconcile_idem (fetch : String → FetchResult) (b : WebhookBody) (st : Store) :
    reconcile fetch b (reconcile fetch b st) = reconcile fetch b st := by
  by_cases hg : b.type = some "payment" ∧ b.hasId = true
  case neg =>
    have h1 := reconcile_not_processed fetch b st hg
    rw [h1]
    exact h1
  case pos =>
    obtain ⟨ht, hid⟩ := hg
    cases hd : b.dataId with
    | none =>
      exfalso
      unfold WebhookBody.hasId at hid
      rw [hd] at hid
      exact Bool.false_ne_true hid
    | some pid =>
      have hp : pid ≠ "" := by
        unfold WebhookBody.hasId at hid
        rw [hd] at hid
        simpa using hid
      cases hf : fetch pid with
      | exc =>
        have h1 := reconcile_fetch_exc fetch b st pid hd hf
        rw [h1]
        exact h1
      | ok p =>
        cases hu : p.metadata_userId with
        | none =>
          have h1 := reconcile_no_user fetch b st pid p hd hf hu
          rw [h1]
          exact h1
        | some uid =>
          have h1 := reconcile_main fetch b st pid p uid ht hd hp hf hu
          have h2 := reconcile_main fetch b (reconcile fetch b st) pid p uid ht hd hp hf hu
          by_cases ha : p.status = "approved"
          · rw [if_pos ha] at h1 h2
            rw [h2, h1]
            have hdup : ((setUserPaid (insertPayment st (rowOf pid p uid)) uid).payments.any
                fun q => q.mp_payment_id = (rowOf pid p uid).mp_payment_id) = true := by
              rw [setUserPaid_payments]
              exact insertPayment_any_self st (rowOf pid p uid)
            rw [insertPayment_of_any _ _ hdup, setUserPaid_idem]
          · rw [if_neg ha] at h1 h2
            rw [h2, h1]
            exact insertPayment_of_any _ _ (insertPayment_any_self st (rowOf pid p uid))

theorem paymentCount_any_false (st : Store) (pid : String)
    (h : paymentCount st pid = 0) :
    (st.payments.any fun q => q.mp_payment_id = pid) = false := by
  unfold paymentCount at h
  rw [List.length_eq_zero] at h
  rw [List.any_eq_false]
  intro q hq
  have := List.filter_eq_nil_iff.mp h q hq
  simpa using this

theorem paymentCount_setUserPaid (st : Store) (uid : Nat) (pid : String) :
    paymentCount (setUserPaid st uid) pid = paymentCount st pid := by
  unfold paymentCount
  rw [setUserPaid_payments]

theorem reconcile_count_one (fetch : String → FetchResult) (b : WebhookBody) (st : Store)
    (pid : String) (p : FetchedPayment) (uid : Nat)
    (ht : b.type = some "payment") (hd : b.dataId = some pid) (hp : pid ≠ "")
    (hf : fetch pid = .ok p) (hu : p.metadata_userId = some uid)
    (h0 : paymentCount st pid = 0) :
    paymentCount (reconcile fetch b st) pid = 1 := by
  rw [reconcile_main fetch b st pid p uid ht hd hp hf hu]
  have hany := paymentCount_any_false st pid h0
  have hfil : List.filter (fun q => decide (q.mp_payment_id = pid)) st.payments = [] := by
    unfold paymentCount at h0
    exact List.length_eq_zero.mp h0
  have hins : paymentCount (insertPayment st (rowOf pid p uid)) pid = 1 := by
    unfold insertPayment paymentCount
    rw [show (rowOf pid p uid).mp_payment_id = pid from rfl, hany]
    simp [List.filter_cons, hfil]
    rw [if_pos (show (rowOf pid p uid).mp_payment_id = pid from rfl)]
    rfl
  by_cases ha : p.status = "approved"
  · rw [if_pos ha, paymentCount_setUserPaid]
    exact hins
  · rw [if_neg ha]
    exact hins

theorem iterate_fixed {α : Type} (f : α → α) (x : α) (h : f (f x) = f x) (n : Nat) :
    f^[n + 1] x = f x := by
  induction n with
  | zero => simp
  | succ m ih => rw [Function.iterate_succ_apply', ih, h]

/-- C1: webhook reconciliation is idempotent.  Re-reconciling an
already-reconciled store is the identity
(`reconcile(id) ∘ reconcile(id) = reconcile(id)` on observable store
state), and delivering a processed notification N ≥ 1 times leaves
exactly one payments row for that provider payment id. -/
theorem mindkids_C1_idempotent_reconcile (fetch : String → FetchResult) (b : WebhookBody)
    (st : Store) (pid : String) (p : FetchedPayment) (uid : Nat) :
    reconcile fetch b (reconcile fetch b st) = reconcile fetch b st ∧
    (b.type = some "payment" → b.dataId = some pid → pid ≠ "" →
      fetch pid = .ok p → p.metadata_userId = some uid → paymentCount st pid = 0 →
      ∀ n, 1 ≤ n → paymentCount ((reconcile fetch b)^[n] st) pid = 1) := by
  refine ⟨reconcile_idem fetch b st, ?_⟩
  intro ht hd hp hf hu h0 n hn
  obtain ⟨m, rfl⟩ : ∃ m, n = m + 1 := ⟨n - 1, (Nat.succ_pred_eq_of_pos hn).symm⟩
  rw [iterate_fixed _ _ (reconcile_idem fetch b st) m]
  exact reconcile_count_one fetch b st pid p uid ht hd hp hf hu h0

/-- Witness for C1: three deliveries of the `PAY1` notification leave
one payments row, and the second reconciliation is the identity. -/
theorem mindkids_C1_witness :
    reconcile exFetchApproved exBody1 (reconcile exFetchApproved exBody1 exStoreEmptyPay) =
      reconcile exFetchApproved exBody1 exStoreEmptyPay ∧
    paymentCount ((reconcile exFetchApproved exBody1)^[3] exStoreEmptyPay) "PAY1" = 1 := by
  have h := mindkids_C1_idempotent_reconcile exFetchApproved exBody1 exStoreEmptyPay "PAY1"
    { status := "approved", transaction_amount := 10, metadata_userId := some 1 } 1
  exact ⟨h.1, h.2 rfl rfl (by decide) (by decide) rfl (by decide) 3 (by decide)⟩

/-! ### Lemmas about the paid flag -/

theorem insertPayment_users (st : Store) (r : PaymentRow) :
    (insertPayment st r).users = st.users := by
  unfold insertPayment
  split <;> rfl

theorem paidOf_congr_users (s1 s2 : Store) (v : Nat) (h : s1.users = s2.users) :
    paidOf s1 v = paidOf s2 v := by
  unfold paidOf
  rw [h]

theorem find?_map_paidSet (l : List User) (uid v : Nat) :
    (l.map fun u => if u.id = uid then { u with is_paid := true } else u).find?
        (fun u => u.id = v) =
      (l.find? fun u => u.id = v).map
        (fun u => if u.id = uid then { u with is_paid := true } else u) := by
  induction l with
  | nil => rfl
  | cons a t ih =>
    by_cases h : a.id = v
    · have hfa : ((if a.id = uid then { a with is_paid := true } else a).id = v) := by
        by_cases h2 : a.id = uid
        · rw [if_pos h2]; exact h
        · rw [if_neg h2]; exact h
      simp only [List.map_cons]
      rw [List.find?_cons_of_pos _ (by simpa using hfa),
        List.find?_cons_of_pos _ (by simpa using h)]
      rfl
    · have hfa : ¬((if a.id = uid then { a with is_paid := true } else a).id = v) := by
        by_cases h2 : a.id = uid
        · rw [if_pos h2]; exact h
        · rw [if_neg h2]; exact h
      simp only [List.map_cons]
      rw [List.find?_cons_of_neg _ (by simpa using hfa),
        List.find?_cons_of_neg _ (by simpa using h)]
      exact ih

theorem paidOf_setUserPaid_mono (st : Store) (uid v : Nat)
    (h : paidOf st v = true) : paidOf (setUserPaid st uid) v = true := by
  unfold paidOf at h ⊢
  unfold setUserPaid
  dsimp only
  rw [find?_map_paidSet]
  cases hf : st.users.find? (fun u => u.id = v) with
  | none => rw [hf] at h; simp at h
  | some u =>
    rw [hf] at h
    have hpaid : u.is_paid = true := h
    simp only [Option.map_some']
    by_cases h2 : u.id = uid
    · simp [h2]
    · simp [h2, hpaid]

theorem paidOf_setUserPaid_other (st : Store) (uid v : Nat) (hne : v ≠ uid) :
    paidOf (setUserPaid st uid) v = paidOf st v := by
  unfold paidOf setUserPaid
  dsimp only
  rw [find?_map_paidSet]
  cases hf : st.users.find? (fun u => u.id = v) with
  | none => simp
  | some u =>
    have hu : u.id = v := by simpa using List.find?_some hf
    have h2 : ¬(u.id = uid) := by rw [hu]; exact hne
    simp [h2]

theorem paidOf_setUserPaid_self (st : Store) (uid : Nat)
    (hex : (st.users.any fun u => u.id = uid) = true) :
    paidOf (setUserPaid st uid) uid = true := by
  unfold paidOf setUserPaid
  dsimp only
  rw [find?_map_paidSet]
  have hsome : ∃ u, st.users.find? (fun u => u.id = uid) = some u := by
    cases hf : st.users.find? (fun u => u.id = uid) with
    | some u => exact ⟨u, rfl⟩
    | none =>
      rw [List.find?_eq_none] at hf
      rw [List.any_eq_true] at hex
      obtain ⟨x, hx, hpx⟩ := hex
      exact absurd hpx (hf x hx)
  obtain ⟨u, hf⟩ := hsome
  have hu : u.id = uid := by simpa using List.find?_some hf
  simp [hf, hu]

theorem paidOf_append_unpaid (st : Store) (u : User) (v : Nat)
    (hfalse : u.is_paid = false) :
    paidOf { st with users := st.users ++ [u] } v = paidOf st v := by
  unfold paidOf
  dsimp only
  rw [List.find?_append]
  cases hf : st.users.find? (fun w => w.id = v) with
  | some w => simp [hf]
  | none =>
    by_cases hu2 : u.id = v
    · simp [hf, hu2, hfalse]
    · simp [hf, hu2]

theorem login_store_id (c : String → String → Bool) (s : String) (n : Nat)
    (st : Store) (e pw : String) : (login c s n st e pw).1 = st := by
  unfold login
  repeat' split
  all_goals rfl

theorem loginV2_store_id (c : String → String → Bool) (s : String) (n : Nat)
    (st : Store) (e pw : String) : (loginV2 c s n st e pw).1 = st := by
  unfold loginV2
  repeat' split
  all_goals rfl

/-- A webhook delivery whose payments insert throws leaves the store
unchanged (the exception aborts the try block before any write). -/
theorem webhook_insertExc (fetch : String → FetchResult) (uE : Bool) (b : WebhookBody)
    (st : Store) : (webhook fetch true uE b st).1 = st := by
  unfold webhook
  repeat' split
  all_goals first | rfl | simp_all

/-- A webhook delivery whose users update throws leaves the user table
unchanged (the insert may have landed, the grant did not). -/
theorem webhook_updateExc_users (fetch : String → FetchResult) (iE : Bool)
    (b : WebhookBody) (st : Store) :
    ((webhook fetch iE true b st).1).users = st.users := by
  unfold webhook
  repeat' split
  all_goals first | rfl | apply insertPayment_users | simp_all

/-- An exception-free webhook delivery is exactly `reconcile`. -/
theorem webhook_no_exc (fetch : String → FetchResult) (b : WebhookBody) (st : Store) :
    (webhook fetch false false b st).1 = reconcile fetch b st := rfl

/-- Dichotomy of the webhook's store transition: either the user table
is untouched, or the full processed-approved path ran and the
transition is insert-then-grant. -/
theorem webhook_users_cases (fetch : String → FetchResult) (iE uE : Bool)
    (b : WebhookBody) (st : Store) :
    ((webhook fetch iE uE b st).1).users = st.users ∨
    ∃ pid p uid, b.type = some "payment" ∧ b.dataId = some pid ∧ pid ≠ "" ∧
      fetch pid = .ok p ∧ p.metadata_userId = some uid ∧ p.status = "approved" ∧
      iE = false ∧ uE = false ∧
      (webhook fetch iE uE b st).1 = setUserPaid (insertPayment st (rowOf pid p uid)) uid := by
  cases iE with
  | true => left; rw [webhook_insertExc]
  | false =>
    cases uE with
    | true => left; rw [webhook_updateExc_users]
    | false =>
      rw [webhook_no_exc]
      by_cases hg : b.type = some "payment" ∧ b.hasId = true
      case neg => left; rw [reconcile_not_processed fetch b st hg]
      case pos =>
        obtain ⟨ht, hid⟩ := hg
        cases hd : b.dataId with
        | none =>
          exfalso
          unfold WebhookBody.hasId at hid
          rw [hd] at hid
          exact Bool.false_ne_true hid
        | some pid =>
          have hp : pid ≠ "" := by
            unfold WebhookBody.hasId at hid
            rw [hd] at hid
            simpa using hid
          cases hf : fetch pid with
          | exc => left; rw [reconcile_fetch_exc fetch b st pid hd hf]
          | ok p =>
            cases hu : p.metadata_userId with
            | none => left; rw [reconcile_no_user fetch b st pid p hd hf hu]
            | some uid =>
              have hm := reconcile_main fetch b st pid p uid ht hd hp hf hu
              by_cases ha : p.status = "approved"
              · right
                rw [if_pos ha] at hm
                exact ⟨pid, p, uid, ht, rfl, hp, hf, hu, ha, rfl, rfl, hm⟩
              · left
                rw [if_neg ha] at hm
                rw [hm]
                exact insertPayment_users st (rowOf pid p uid)

/-- Every operation that is not a webhook delivery leaves every user's
paid flag unchanged: the webhook is the only write path for
entitlement. -/
theorem nonWebhook_preserves_paid (op : Op)
    (hnw : ∀ f iE uE bb, op ≠ Op.opWebhook f iE uE bb) (st : Store) (v : Nat) :
    paidOf (op.apply st) v = paidOf st v := by
  cases op with
  | opRegister h s now newId ts email pw =>
    simp only [Op.apply]
    unfold register
    split
    · rfl
    · split
      · rfl
      · exact paidOf_append_unpaid st _ v rfl
  | opRegisterV2 h newId ts email pw =>
    simp only [Op.apply]
    split
    · rfl
    · split
      · rfl
      · exact paidOf_append_unpaid st _ v rfl
  | opLogin c s n email pw =>
    simp only [Op.apply, login_store_id]
  | opLoginV2 c s n email pw =>
    simp only [Op.apply, loginV2_store_id]
  | opGetMe _ => rfl
  | opPayCreate _ => rfl
  | opWebhookV2 _ => rfl
  | opWebhook f iE uE bb => exact absurd rfl (hnw f iE uE bb)

/-! ### C2: when entitlement is written -/

/-- Counterexample to C2 as stated: with a `pending` row for `PAY1`
already recorded, a duplicate delivery whose fetched status is now
`approved` performs NO insertion (the payments table is unchanged) yet
still sets the user's paid flag — the flag is not set "only on the
successful first insertion". -/
theorem mindkids_C2_counterexample :
    paidOf exStorePending 1 = false ∧
    (reconcile exFetchApproved exBody1 exStorePending).payments = exStorePending.payments ∧
    paidOf (reconcile exFetchApproved exBody1 exStorePending) 1 = true := by decide

/-- C2 (amended): the webhook sets the user's paid flag whenever the
fetched status is approved and the record is attributed — whether or
not the payments insert was a first insertion or a duplicate no-op.
The webhook path is still the only write path for the flag: every
other operation preserves every paid flag exactly. -/
theorem mindkids_C2_amended_entitlement_write :
    (∀ (fetch : String → FetchResult) (b : WebhookBody) (st : Store) (pid : String)
        (p : FetchedPayment) (uid : Nat),
      b.type = some "payment" → b.dataId = some pid → pid ≠ "" →
      fetch pid = .ok p → p.metadata_userId = some uid → p.status = "approved" →
      (st.users.any fun u => u.id = uid) = true →
      paidOf (reconcile fetch b st) uid = true) ∧
    (∀ op : Op, (∀ f iE uE bb, op ≠ Op.opWebhook f iE uE bb) →
      ∀ st v, paidOf (op.apply st) v = paidOf st v) := by
  constructor
  · intro fetch b st pid p uid ht hd hp hf hu ha hex
    rw [reconcile_main fetch b st pid p uid ht hd hp hf hu, if_pos ha]
    apply paidOf_setUserPaid_self
    rw [insertPayment_users]
    exact hex
  · exact fun op hnw st v => nonWebhook_preserves_paid op hnw st v

/-- Witness for the amended C2: the duplicate-delivery scenario grants
entitlement. -/
theorem mindkids_C2_witness :
    paidOf (reconcile exFetchApproved exBody1 exStorePending) 1 = true :=
  mindkids_C2_amended_entitlement_write.1 exFetchApproved exBody1 exStorePending "PAY1"
    { status := "approved", transaction_amount := 10, metadata_userId := some 1 } 1
    rfl rfl (by decide) (by decide) rfl rfl (by decide)

/-! ### C5: the paid-flag invariant -/

/-- Counterexample to C5 as stated: after the duplicate delivery the
user's flag flipped to true, yet the store contains NO approved
PaymentRecord for that user (the only row is the earlier `pending`
one). -/
theorem mindkids_C5_counterexample :
    paidOf exStorePending 1 = false ∧
    paidOf ((Op.opWebhook exFetchApproved false false exBody1).apply exStorePending) 1 = true ∧
    (((Op.opWebhook exFetchApproved false false exBody1).apply exStorePending).payments.filter
        fun r => decide (r.user_id = 1 ∧ r.status = "approved")).length = 0 := by decide

/-- C5 (amended): across every operation of the system a paid flag is
monotone (never true→false), and it flips false→true only on an
exception-free webhook delivery whose freshly fetched provider record
is approved and attributed to that user — the stored PaymentRecord may
carry an earlier, different status. -/
theorem mindkids_C5_amended_paid_monotone (op : Op) (st : Store) (uid : Nat) :
    (paidOf st uid = true → paidOf (op.apply st) uid = true) ∧
    (paidOf st uid = false → paidOf (op.apply st) uid = true →
      ∃ fetch b pid p, op = Op.opWebhook fetch false false b ∧
        b.type = some "payment" ∧ b.dataId = some pid ∧ pid ≠ "" ∧
        fetch pid = FetchResult.ok p ∧ p.metadata_userId = some uid ∧
        p.status = "approved") := by
  by_cases hw : ∃ f iE uE bb, op = Op.opWebhook f iE uE bb
  case neg =>
    have hnw : ∀ f iE uE bb, op ≠ Op.opWebhook f iE uE bb := by
      intro f iE uE bb hcon
      exact hw ⟨f, iE, uE, bb, hcon⟩
    have hp := nonWebhook_preserves_paid op hnw st uid
    constructor
    · intro h; rw [hp]; exact h
    · intro h1 h2
      rw [hp, h1] at h2
      exact absurd h2 (by simp)
  case pos =>
    obtain ⟨f, iE, uE, bb, rfl⟩ := hw
    rcases webhook_users_cases f iE uE bb st with
      hL | ⟨pid, p, u2, ht, hd, hpne, hf, hu, ha, hiE, huE, heq⟩
    · have hp : paidOf ((Op.opWebhook f iE uE bb).apply st) uid = paidOf st uid :=
        paidOf_congr_users _ _ uid hL
      constructor
      · intro h; rw [hp]; exact h
      · intro h1 h2
        rw [hp, h1] at h2
        exact absurd h2 (by simp)
    · subst hiE
      subst huE
      have happly : (Op.opWebhook f false false bb).apply st =
          setUserPaid (insertPayment st (rowOf pid p u2)) u2 := heq
      constructor
      · intro h
        rw [happly]
        apply paidOf_setUserPaid_mono
        rw [paidOf_congr_users (insertPayment st (rowOf pid p u2)) st uid
          (insertPayment_users st _)]
        exact h
      · intro h1 h2
        by_cases huid : uid = u2
        · subst huid
          exact ⟨f, bb, pid, p, rfl, ht, hd, hpne, hf, hu, ha⟩
        · rw [happly, paidOf_setUserPaid_other _ _ _ huid,
            paidOf_congr_users _ st uid (insertPayment_users st _), h1] at h2
          exact absurd h2 (by simp)

/-- A store whose only user is already entitled. -/
def exStorePaid : Store :=
  { users := [{ id := 1, email := "a@b.c", password_hash := "h1", is_paid := true,
                created_at := 0 }],
    payments := [] }

/-- Witness for the amended C5: an already-true flag stays true through
a webhook delivery. -/
theorem mindkids_C5_witness :
    paidOf ((Op.opWebhook exFetchApproved false false exBody1).apply exStorePaid) 1 = true :=
  (mindkids_C5_amended_paid_monotone (Op.opWebhook exFetchApproved false false exBody1)
    exStorePaid 1).1 (by decide)

/-! ### C7: the Auth Gate's rejection shape -/

/-- Counterexample to C7 as stated: a missing "Bearer " prefix and a
malformed token do NOT produce the same response — the bodies differ
("Unauthorized" vs "Invalid token"), so a distinction IS surfaced to
the caller. -/
theorem mindkids_C7_counterexample :
    authRequired encClaim "change_me" 0 BearerCred.noHeader ≠
      authRequired encClaim "change_me" 0
        (BearerCred.bearer (TokenWire.malformed "xyz")) := by
  decide

/-- C7 (amended): every rejection of the auth gate carries status 401;
a malformed token, a bad signature and an expired token all yield the
identical `"Invalid token"` response, while a missing `"Bearer "`
prefix yields a distinct `"Unauthorized"` body. -/
theorem mindkids_C7_amended_uniform_401 (secret : String) (now : Nat)
    (cred : BearerCred ClaimV1) :
    (∀ stt msg, authRequired encClaim secret now cred = .reject stt msg → stt = 401) ∧
    (authRequired encClaim secret now .noHeader = .reject 401 "Unauthorized") ∧
    (∀ s, authRequired encClaim secret now (.notBearer s) = .reject 401 "Unauthorized") ∧
    (∀ w, (∀ c, jwtVerify encClaim secret now w ≠ .ok c) →
      authRequired encClaim secret now (.bearer w) = .reject 401 "Invalid token") := by
  refine ⟨?_, rfl, fun s => rfl, ?_⟩
  · cases cred with
    | noHeader =>
      intro stt msg h
      injection h with h1 h2
      exact h1.symm
    | notBearer s =>
      intro stt msg h
      injection h with h1 h2
      exact h1.symm
    | bearer w =>
      intro stt msg h
      unfold authRequired at h
      dsimp only at h
      cases hv : jwtVerify encClaim secret now w with
      | ok _ =>
        rw [hv] at h
        exact AuthOutcome.noConfusion h
      | error e =>
        rw [hv] at h
        injection h with h1 h2
        exact h1.symm
  · intro w hw
    unfold authRequired
    dsimp only
    cases hv : jwtVerify encClaim secret now w with
    | ok c => exact absurd hv (hw c)
    | error e => rfl

/-- Witness for the amended C7: a malformed bearer token is rejected
with 401 "Invalid token". -/
theorem mindkids_C7_witness :
    authRequired encClaim "change_me" 0
      (BearerCred.bearer (TokenWire.malformed "zz")) = .reject 401 "Invalid token" :=
  (mindkids_C7_amended_uniform_401 "change_me" 0 BearerCred.noHeader).2.2.2
    (TokenWire.malformed "zz") (fun _ h => Except.noConfusion h)

/-! ### C8: token round-trip -/

/-- C8: verifying a token issued for a claim returns the claim at any
time strictly before the 7-day expiry, returns an expiry error at or
after the expiry, and returns a signature error when any single bit of
the signature segment is flipped. -/
theorem mindkids_C8_token_roundtrip (secret : String) (c : ClaimV1) (t0 t : Nat) :
    (t < t0 + 7 * 86400 →
      verifyWith encClaim secret (issueWith encClaim secret c t0) t = .ok c) ∧
    (t0 + 7 * 86400 ≤ t →
      verifyWith encClaim secret (issueWith encClaim secret c t0) t = .error .expired) ∧
    (∀ i : Nat,
      verifyWith encClaim secret
        { issueWith encClaim secret c t0 with
          sig := (issueWith encClaim secret c t0).sig ^^^ 2 ^ i } t =
        .error .invalidSignature) := by
  refine ⟨?_, ?_, ?_⟩
  · intro h
    unfold issueWith verifyWith
    dsimp only
    rw [if_pos rfl, if_pos h]
  · intro h
    unfold issueWith verifyWith
    dsimp only
    rw [if_pos rfl, if_neg (by omega)]
  · intro i
    unfold issueWith verifyWith
    dsimp only
    have hne : ¬(macSig secret (encClaim c) (t0 + 7 * 86400) ^^^ 2 ^ i =
        macSig secret (encClaim c) (t0 + 7 * 86400)) := by
      intro hcon
      have h2 : (2 : Nat) ^ i = 0 := by
        have hc := congrArg
          (fun z => macSig secret (encClaim c) (t0 + 7 * 86400) ^^^ z) hcon
        simp [Nat.xor_cancel_left] at hc
      exact (pow_pos (by norm_num : (0 : Nat) < 2) i).ne' h2
    rw [if_neg hne]

/-- Witness for C8: a concrete claim round-trips at t=100, expires at
t=604800, and a bit-0 flip of the signature is rejected. -/
theorem mindkids_C8_witness :
    verifyWith encClaim "k"
        (issueWith encClaim "k" { id := 1, email := "a", is_paid := false } 0) 100 =
      .ok { id := 1, email := "a", is_paid := false } ∧
    verifyWith encClaim "k"
        (issueWith encClaim "k" { id := 1, email := "a", is_paid := false } 0) 604800 =
      .error .expired ∧
    verifyWith encClaim "k"
        { issueWith encClaim "k" { id := 1, email := "a", is_paid := false } 0 with
          sig := (issueWith encClaim "k"
            { id := 1, email := "a", is_paid := false } 0).sig ^^^ 2 ^ 0 } 100 =
      .error .invalidSignature := by
  have h1 := mindkids_C8_token_roundtrip "k" { id := 1, email := "a", is_paid := false } 0 100
  have h2 := mindkids_C8_token_roundtrip "k" { id := 1, email := "a", is_paid := false } 0 604800
  exact ⟨h1.1 (by decide), h2.2.1 (by decide), h1.2.2 0⟩

/-! ### C9: what the signed payload contains -/

/-- Counterexample to C9 as stated: in variant 2's login the signed
payload is the entire stored row, so it carries the stored credential
hash (`"h1"` here) — the payload does not consist only of id, email,
paid snapshot and expiry. -/
theorem mindkids_C9_counterexample :
    ((loginV2 (fun _ _ => true) "k" 0 exStoreEmptyPay "a@b.c" "pw").2.token.map
      fun t => t.payload.password_hash) = some "h1" := by decide

/-- C9 (amended): variant 1 signs exactly `{ id, email, is_paid }`
(plus the expiry added by the token service) on both register and
login; variant 2's login instead signs the entire stored user row,
credential hash included. -/
theorem mindkids_C9_amended_payloads :
    (∀ (cmp : String → String → Bool) (secret : String) (now : Nat) (st : Store)
        (email pw : String) (u : User),
      st.users.find? (fun w => w.email = email) = some u →
      cmp pw u.password_hash = true → email ≠ "" → pw ≠ "" →
      (login cmp secret now st email pw).2.token =
        some (issueWith encClaim secret
          { id := u.id, email := u.email, is_paid := u.is_paid } now) ∧
      (loginV2 cmp secret now st email pw).2.token =
        some (issueWith encUser secret u now)) ∧
    (∀ (hashF : String → String) (secret : String) (now newId ts : Nat) (st : Store)
        (email pw : String),
      email ≠ "" → pw ≠ "" → (st.users.any fun w => w.email = email) = false →
      (register hashF secret now newId ts st email pw).2.token =
        some (issueWith encClaim secret
          { id := newId, email := email, is_paid := false } now)) := by
  constructor
  · intro cmp secret now st email pw u hfind hcmp he hp
    constructor
    · unfold login
      rw [if_neg (by simp [he, hp]), hfind]
      simp [hcmp]
    · unfold loginV2
      rw [if_neg (by simp [he, hp]), hfind]
      simp [hcmp]
  · intro hashF secret now newId ts st email pw he hp hany
    unfold register
    rw [if_neg (by simp [he, hp]), if_neg (by simp [hany])]

/-- Witness for the amended C9: the concrete variant-2 login signs the
full `exUser1` row. -/
theorem mindkids_C9_witness :
    (loginV2 (fun _ _ => true) "k" 0 exStoreEmptyPay "a@b.c" "pw").2.token =
      some (issueWith encUser "k" exUser1 0) :=
  (mindkids_C9_amended_payloads.1 (fun _ _ => true) "k" 0 exStoreEmptyPay "a@b.c" "pw"
    exUser1 (by decide) rfl (by decide) (by decide)).2

/-! ### C10: the response body returns the stored row -/

/-- C10: in variant 1, a successful login returns the full stored user
row — credential hash included — and a successful register returns the
full inserted row, whose `password_hash` is the bcrypt hash of the
submitted password. -/
theorem mindkids_C10_response_exposes_hash :
    (∀ (cmp : String → String → Bool) (secret : String) (now : Nat) (st : Store)
        (email pw : String) (u : User),
      st.users.find? (fun w => w.email = email) = some u →
      cmp pw u.password_hash = true → email ≠ "" → pw ≠ "" →
      (login cmp secret now st email pw).2.user = some u ∧
      ((login cmp secret now st email pw).2.user.map fun w => w.password_hash) =
        some u.password_hash) ∧
    (∀ (hashF : String → String) (secret : String) (now newId ts : Nat) (st : Store)
        (email pw : String),
      email ≠ "" → pw ≠ "" → (st.users.any fun w => w.email = email) = false →
      (register hashF secret now newId ts st email pw).2.user =
        some (newUserRow newId ts email (hashF pw)) ∧
      ((register hashF secret now newId ts st email pw).2.user.map
        fun w => w.password_hash) = some (hashF pw)) := by
  constructor
  · intro cmp secret now st email pw u hfind hcmp he hp
    constructor
    · unfold login
      rw [if_neg (by simp [he, hp]), hfind]
      simp [hcmp]
    · unfold login
      rw [if_neg (by simp [he, hp]), hfind]
      simp [hcmp]
  · intro hashF secret now newId ts st email pw he hp hany
    constructor
    · unfold register
      rw [if_neg (by simp [he, hp]), if_neg (by simp [hany])]
    · unfold register
      rw [if_neg (by simp [he, hp]), if_neg (by simp [hany])]
      rfl

/-- Witness for C10: the concrete login response exposes `exUser1`'s
stored hash `"h1"`. -/
theorem mindkids_C10_witness :
    ((login (fun _ _ => true) "k" 0 exStoreEmptyPay "a@b.c" "pw").2.user.map
      fun w => w.password_hash) = some "h1" :=
  (mindkids_C10_response_exposes_hash.1 (fun _ _ => true) "k" 0 exStoreEmptyPay
    "a@b.c" "pw" exUser1 (by decide) rfl (by decide) (by decide)).2

end MindKids
